import Mathlib

/-!
Verification of the snake mini-game simulation of `src/components/SnakeDonerGame.tsx`
(the toroidal / nazar variant, which the specification follows).

The component's game logic is shallowly embedded here:
* every `Math.random()` draw is replaced by an explicit seed argument, carried in
  the `InitRand` / `TickRand` records, so that all definitions are executable and
  deterministic;
* JS numbers holding timestamps, scores and counters are modelled as `Nat`
  (they are non-negative integers in the source); grid coordinates are `Int`
  with the source's `(v + size) % size` wraparound, `%` being `Int.emod`;
* the `Set<string>` of `makeBlockedKey` cell keys is modelled as a `List Point`
  with pointwise membership (`makeBlockedKey` is injective on integer cells);
* the `setInterval` body is the function `tick`, the `setGame` callbacks of the
  component are the functions `queueTurn` and `startNewRun`, and `Reachable`
  closes the initial states under those three entry points.
-/

/-- A grid cell (source `type Point = { x, y }`). -/
structure Point where
  x : Int
  y : Int
deriving DecidableEq, Repr

/-- Directions are unit points (source `type Direction = Point`). -/
abbrev Direction := Point

/-- The seven food kinds (source `type FoodType`). -/
inductive FoodType
  | simit
  | doner
  | baklava
  | cay
  | ayran
  | kahve
  | raki
deriving DecidableEq, Repr

/-- Source `type TrafficState = "none" | "red" | "green"`. -/
inductive TrafficState
  | none
  | red
  | green
deriving DecidableEq, Repr

/-- Source `type GamePhase = "ready" | "running" | "game_over"`. -/
inductive GamePhase
  | ready
  | running
  | game_over
deriving DecidableEq, Repr

/-- Source `type ToneKey`. -/
inductive ToneKey
  | eat
  | boost
  | danger
  | dead
  | fortune
  | start
deriving DecidableEq, Repr

/-- Source `type Food = Point & { type: FoodType }`; the point part is the field `pt`. -/
structure Food where
  pt : Point
  type : FoodType
deriving DecidableEq, Repr

/-- The transient visual overlays (source `overlayKey: null | "ayran" | "raki"`). -/
inductive OverlayKey
  | ayran
  | raki
deriving DecidableEq, Repr

/-- The full game state (source `type GameState`). -/
structure GameState where
  phase : GamePhase
  bestScore : Nat
  snake : List Point
  direction : Direction
  pendingDirection : Direction
  food : Food
  nazar : Option Point
  score : Nat
  lastStepAt : Nat
  nowMs : Nat
  speedBoostUntil : Nat
  slowUntil : Nat
  freezeUntil : Nat
  teaStreak : Nat
  trafficState : TrafficState
  trafficUntil : Nat
  nextTrafficAt : Nat
  nextNazarAt : Nat
  drunkUntil : Nat
  overlayKey : Option OverlayKey
  overlayUntil : Nat
  gameOverLine : String
  voiceLine : String
  eventId : Nat
  eventTone : Option ToneKey
deriving DecidableEq, Repr

/-- Source `GRID_COLS = 20`. -/
def GRID_COLS : Nat := 20

/-- Source `GRID_ROWS = 12`. -/
def GRID_ROWS : Nat := 12

/-- Per-food metadata (source `FOOD_META` record values). -/
structure FoodMeta where
  label : String
  score : Nat
  grow : Nat
deriving DecidableEq, Repr

/-- Source `FOOD_META` (the Turkish `hint` strings, used only by the legend UI,
are omitted; diacritics are dropped from labels). -/
def FOOD_META : FoodType → FoodMeta
  | .simit => ⟨"Simit", 8, 1⟩
  | .doner => ⟨"Doner", 12, 2⟩
  | .baklava => ⟨"Baklava", 16, 1⟩
  | .cay => ⟨"Cay", 7, 1⟩
  | .ayran => ⟨"Ayran", 9, 1⟩
  | .kahve => ⟨"Turk Kahvesi", 10, 1⟩
  | .raki => ⟨"Raki", 11, 1⟩

/-- Source `FOOD_POOL` (weighted draw pool). -/
def FOOD_POOL : List FoodType :=
  [.simit, .simit, .simit, .doner, .doner, .baklava, .cay, .cay, .ayran, .kahve, .raki]

/-- Source `EAT_LINES` (diacritics dropped). -/
def EAT_LINES : List String :=
  ["Afiyet olsun abi.", "Eline saglik.", "Bir cay daha?", "Cok iyi gidiyorsun."]

/-- Source `DEATH_LINES` (diacritics dropped). -/
def DEATH_LINES : List String :=
  ["Of be abi yine mi?", "Yandi gulum keten helva.", "Hayat devam ediyor.",
   "Kuyruga carptin. Canin sag olsun."]

/-- Source `FORTUNE_LINES` (diacritics dropped). -/
def FORTUNE_LINES : List String :=
  ["Fal: kismetin aciliyor.", "Fal: dikkat, trafikte yavasla.",
   "Fal: bugun sans senden yana.", "Fal: sabirli olursan skor patlar."]

/-- Source `DIRECTIONS.up`. -/
def dirUp : Direction := ⟨0, -1⟩

/-- Source `DIRECTIONS.down`. -/
def dirDown : Direction := ⟨0, 1⟩

/-- Source `DIRECTIONS.left`. -/
def dirLeft : Direction := ⟨-1, 0⟩

/-- Source `DIRECTIONS.right`. -/
def dirRight : Direction := ⟨1, 0⟩

/-- Source `randomInt(min, max)`: `Math.floor(Math.random() * (max - min + 1)) + min`.
The `Math.floor` of the scaled draw is an arbitrary value in `[0, max - min]`,
modelled as `seed % (max - min + 1)`. -/
def randomInt (lo hi seed : Nat) : Nat :=
  seed % (hi - lo + 1) + lo

/-- Source `randomFrom(values)`: `values[randomInt(0, values.length - 1)]`
(with a default for the out-of-range access JS would answer with `undefined`;
all pools in this file are non-empty, so the default is never reached). -/
def randomFrom (values : List α) (dflt : α) (seed : Nat) : α :=
  values.getD (randomInt 0 (values.length - 1) seed) dflt

/-- Source `samePoint`. -/
def samePoint (a b : Point) : Bool :=
  a.x == b.x && a.y == b.y

/-- All grid cells, in the scan order of `randomCell`'s fallback loop
(`y` outer, `x` inner). -/
def allCells : List Point :=
  (List.range GRID_ROWS).flatMap fun y =>
    (List.range GRID_COLS).map fun x => ⟨Int.ofNat x, Int.ofNat y⟩

/-- One iteration of `randomCell`'s random-try loop: the candidate cell built
from the two `randomInt` draws of that iteration. -/
def tryCell (t : Nat × Nat) : Point :=
  ⟨Int.ofNat (randomInt 0 (GRID_COLS - 1) t.1), Int.ofNat (randomInt 0 (GRID_ROWS - 1) t.2)⟩

/-- Source `randomCell(excluded)`: up to `maxCells * 2` random tries for a cell
outside the excluded set, then an in-order scan over the whole grid, then the
final `{ x: 0, y: 0 }` fallback. The random draws of the try loop are supplied
in `tries`. -/
def randomCell (excluded : List Point) (tries : List (Nat × Nat)) : Point :=
  match (tries.take (GRID_COLS * GRID_ROWS * 2)).find? (fun t => !(excluded.contains (tryCell t))) with
  | some t => tryCell t
  | none =>
    match allCells.find? (fun p => !(excluded.contains p)) with
    | some p => p
    | none => ⟨0, 0⟩

/-- Source `pickFoodType()`. -/
def pickFoodType (seed : Nat) : FoodType :=
  randomFrom FOOD_POOL .simit seed

/-- Source `getSpeedMs(state, now)`. -/
def getSpeedMs (state : GameState) (now : Nat) : Nat :=
  let speed := 138
  let speed := if now < state.speedBoostUntil then speed - 30 else speed
  let speed := if now < state.slowUntil then speed + 36 else speed
  let speed :=
    if state.trafficState = TrafficState.green ∧ now < state.trafficUntil then speed - 20
    else speed
  max 72 (min 235 speed)

/-- The random draws consumed by `createInitialGame`. -/
structure InitRand where
  foodTries : List (Nat × Nat)
  foodTypeSeed : Nat
  trafficDelaySeed : Nat
  nazarDelaySeed : Nat
deriving Repr

/-- Source `createInitialGame(now, bestScore)` (diacritics dropped from the
voice line). -/
def createInitialGame (now : Nat) (bestScore : Nat) (r : InitRand) : GameState :=
  let snake : List Point := [⟨8, 6⟩, ⟨7, 6⟩, ⟨6, 6⟩, ⟨5, 6⟩]
  let firstFoodPoint := randomCell snake r.foodTries
  { phase := .ready
    bestScore := bestScore
    snake := snake
    direction := dirRight
    pendingDirection := dirRight
    food := ⟨firstFoodPoint, pickFoodType r.foodTypeSeed⟩
    nazar := none
    score := 0
    lastStepAt := now
    nowMs := now
    speedBoostUntil := 0
    slowUntil := 0
    freezeUntil := 0
    teaStreak := 0
    trafficState := .none
    trafficUntil := 0
    nextTrafficAt := now + randomInt 9000 13000 r.trafficDelaySeed
    nextNazarAt := now + randomInt 10000 16000 r.nazarDelaySeed
    drunkUntil := 0
    overlayKey := none
    overlayUntil := 0
    gameOverLine := ""
    voiceLine := "Yilan doner hazir. Baslayalim."
    eventId := 0
    eventTone := none }

/-- Source `startNewRun` callback. -/
def startNewRun (prev : GameState) (now : Nat) (r : InitRand) : GameState :=
  { createInitialGame now prev.bestScore r with
    phase := .running
    eventId := prev.eventId + 1
    eventTone := some .start
    voiceLine := "Afiyet olsun abi, basladik." }

/-- Source `queueTurn(requested)` callback. -/
def queueTurn (prev : GameState) (requested : Direction) : GameState :=
  if prev.phase = GamePhase.game_over then prev
  else
    let desired := requested
    if desired.x = -prev.direction.x ∧ desired.y = -prev.direction.y then prev
    else { prev with pendingDirection := desired }

/-- The random draws consumed by one run of the `setInterval` tick body. -/
structure TickRand where
  trafficRevertDelaySeed : Nat
  goesRed : Bool
  trafficRollDelaySeed : Nat
  nazarTries : List (Nat × Nat)
  nazarDelaySeed : Nat
  wobbleLeft : Bool
  deathLineSeed : Nat
  fortuneLineSeed : Nat
  eatLineSeed : Nat
  foodTries : List (Nat × Nat)
  foodTypeSeed : Nat
deriving Repr

/-- Source `applyEvent(state)` closure of the tick body: commits the pending
flavor line/tone, bumping `eventId` from the `prev` state captured by the
closure. Unset line/tone (the source's falsy check) is `none`. -/
def applyEvent (prevEventId : Nat) (line : Option String) (tone : Option ToneKey)
    (state : GameState) : GameState :=
  match line, tone with
  | some l, some t => { state with eventId := prevEventId + 1, eventTone := some t, voiceLine := l }
  | _, _ => state

/-- Tick step: traffic-light expiry (source `if (next.trafficState !== "none" && now >= next.trafficUntil)`). -/
def tickTrafficRevert (next : GameState) (now : Nat) (r : TickRand) : GameState :=
  if next.trafficState ≠ TrafficState.none ∧ now ≥ next.trafficUntil then
    { next with trafficState := .none, trafficUntil := 0,
                nextTrafficAt := now + randomInt 9000 14000 r.trafficRevertDelaySeed }
  else next

/-- Tick step: traffic-light roll (source `if (next.trafficState === "none" && now >= next.nextTrafficAt)`),
returning the state together with the flavor line/tone it sets. `goesRed`
models `Math.random() < 0.55`. -/
def tickTrafficRoll (next : GameState) (now : Nat) (r : TickRand) :
    GameState × Option String × Option ToneKey :=
  if next.trafficState = TrafficState.none ∧ now ≥ next.nextTrafficAt then
    if r.goesRed then
      ({ next with trafficState := .red, trafficUntil := now + 2400,
                   nextTrafficAt := now + randomInt 9000 14000 r.trafficRollDelaySeed },
       some "Kirmizi isik. Dur!", some ToneKey.danger)
    else
      ({ next with trafficState := .green, trafficUntil := now + 4200,
                   nextTrafficAt := now + randomInt 9000 14000 r.trafficRollDelaySeed },
       some "Yesil yandi. Bas gaza!", some ToneKey.boost)
  else (next, none, none)

/-- Tick step: nazar charm spawn (source `if (!next.nazar && now >= next.nextNazarAt)`);
the spawn cell excludes the snake body and the food. -/
def tickNazarSpawn (next : GameState) (now : Nat) (r : TickRand) : GameState :=
  if next.nazar.isNone ∧ now ≥ next.nextNazarAt then
    let blocked := next.snake ++ [next.food.pt]
    { next with nazar := some (randomCell blocked r.nazarTries),
                nextNazarAt := now + randomInt 12000 18000 r.nazarDelaySeed }
  else next

/-- Tick steps 2-3 (the part of the running branch before the pause checks):
traffic lifecycle then nazar spawn, with the pending flavor line/tone. -/
def tickEvents (prev : GameState) (now : Nat) (r : TickRand) :
    GameState × Option String × Option ToneKey :=
  let a := tickTrafficRevert prev now r
  let b := tickTrafficRoll a now r
  (tickNazarSpawn b.1 now r, b.2.1, b.2.2)

/-- The state after the tick body's event steps, starting from the
`{ ...prev, nowMs: now, eventTone: null }` update of the running branch. -/
def tickNext (prev : GameState) (now : Nat) (r : TickRand) : GameState :=
  (tickEvents { prev with nowMs := now, eventTone := none } now r).1

/-- The flavor line pending after the tick body's event steps. -/
def tickLine (prev : GameState) (now : Nat) (r : TickRand) : Option String :=
  (tickEvents { prev with nowMs := now, eventTone := none } now r).2.1

/-- The flavor tone pending after the tick body's event steps. -/
def tickTone (prev : GameState) (now : Nat) (r : TickRand) : Option ToneKey :=
  (tickEvents { prev with nowMs := now, eventTone := none } now r).2.2

/-- The new-head computation of the tick body: pending direction applied to the
head with toroidal wraparound on both axes, then the raki lateral wobble
(one extra unit orthogonal to travel, also wrapped). `wobbleLeft` models
`Math.random() < 0.5`. -/
def computeNewHead (st : GameState) (now : Nat) (wobbleLeft : Bool) : Point :=
  let direction := st.pendingDirection
  let head := st.snake.headD ⟨0, 0⟩
  let newHead : Point := ⟨head.x + direction.x, head.y + direction.y⟩
  let newHead : Point :=
    ⟨(newHead.x + (GRID_COLS : Int)) % (GRID_COLS : Int),
     (newHead.y + (GRID_ROWS : Int)) % (GRID_ROWS : Int)⟩
  if now < st.drunkUntil then
    let wobble : Int := if wobbleLeft then -1 else 1
    if direction.x ≠ 0 then
      ⟨newHead.x, (newHead.y + wobble + (GRID_ROWS : Int)) % (GRID_ROWS : Int)⟩
    else
      ⟨(newHead.x + wobble + (GRID_COLS : Int)) % (GRID_COLS : Int), newHead.y⟩
  else newHead

/-- The per-food state updates of the food-consumption branch: the new values of
the timed modifiers, tea streak, overlay, and the flavor line/tone each food
kind sets (the source's trailing `else` with `EAT_LINES` is dead code: the
if-chain already covers all seven kinds). Fields mirror the mutable locals of
the tick body. -/
structure EatUpdate where
  speedBoostUntil : Nat
  slowUntil : Nat
  freezeUntil : Nat
  teaStreak : Nat
  drunkUntil : Nat
  overlayKey : Option OverlayKey
  overlayUntil : Nat
  line : Option String
  tone : Option ToneKey

/-- The food-kind dispatch of the food-consumption branch (source's if-chain on
`eaten`), applied to the current values of the mutable locals. -/
def foodEffect (eaten : FoodType) (now : Nat) (speedBoostUntil slowUntil freezeUntil teaStreak drunkUntil : Nat)
    (overlayKey : Option OverlayKey) (overlayUntil : Nat) (fortuneSeed : Nat) : EatUpdate :=
  match eaten with
  | .simit =>
    ⟨max speedBoostUntil (now + 4200), slowUntil, freezeUntil, 0, drunkUntil,
     overlayKey, overlayUntil, some "Simit etkisi. Hizlandin.", some .boost⟩
  | .doner =>
    ⟨speedBoostUntil, slowUntil, freezeUntil, 0, drunkUntil,
     overlayKey, overlayUntil, some "Ekmek arasi mi olsun?", some .eat⟩
  | .baklava =>
    ⟨speedBoostUntil, max slowUntil (now + 5200), freezeUntil, 0, drunkUntil,
     overlayKey, overlayUntil, some "Serbet komasi. Biraz yavas.", some .eat⟩
  | .cay =>
    let sb := max speedBoostUntil (now + 3000)
    let ts := teaStreak + 1
    if ts ≥ 5 then
      ⟨sb, slowUntil, now + 3000, 0, drunkUntil,
       overlayKey, overlayUntil, some "5 cay oldu. Zorunlu cay molasi (3 sn).", some .danger⟩
    else
      ⟨sb, slowUntil, freezeUntil, ts, drunkUntil,
       overlayKey, overlayUntil, some "Cay geldi. Kafein patlamasi.", some .boost⟩
  | .ayran =>
    ⟨speedBoostUntil, max slowUntil (now + 5000), freezeUntil, 0, drunkUntil,
     some .ayran, now + 2000, some "Rehavet coktu. 5 saniye yavas!", some .danger⟩
  | .kahve =>
    ⟨speedBoostUntil, slowUntil, freezeUntil, 0, drunkUntil,
     overlayKey, overlayUntil, some (randomFrom FORTUNE_LINES "" fortuneSeed), some .fortune⟩
  | .raki =>
    ⟨speedBoostUntil, slowUntil, freezeUntil, 0, max drunkUntil (now + 5000),
     some .raki, now + 2000, some "Cok sarhossun. 5 saniye yalpalama!", some .danger⟩

/-- The movement commit of the tick body after the self-collision check passed:
overlay expiry, nazar consumption, food consumption with growth and respawn (or
the ordinary tail pop), and the final state record with `lastStepAt = now`. -/
def tickEat (prevEventId : Nat) (next : GameState) (now : Nat) (r : TickRand)
    (line : Option String) (tone : Option ToneKey) (newHead : Point) (direction : Direction) :
    GameState :=
  let snake0 := newHead :: next.snake
  let ov :=
    if next.overlayKey.isSome ∧ now ≥ next.overlayUntil then ((none : Option OverlayKey), 0)
    else (next.overlayKey, next.overlayUntil)
  let nazarHit := next.nazar.any fun c => samePoint newHead c
  let speedBoostUntil1 := if nazarHit then max next.speedBoostUntil (now + 3600) else next.speedBoostUntil
  let score1 := if nazarHit then next.score + 4 else next.score
  let nazar1 := if nazarHit then none else next.nazar
  let line1 := if nazarHit then some "Nazar enerjisi. Hizlandin!" else line
  let tone1 := if nazarHit then some ToneKey.boost else tone
  if samePoint newHead next.food.pt then
    let eaten := next.food.type
    let meta := FOOD_META eaten
    let score2 := score1 + meta.score
    let snake1 :=
      if meta.grow > 1 then snake0 ++ List.replicate (meta.grow - 1) (next.snake.getLastD ⟨0, 0⟩)
      else snake0
    let u := foodEffect eaten now speedBoostUntil1 next.slowUntil next.freezeUntil
        next.teaStreak next.drunkUntil ov.1 ov.2 r.fortuneLineSeed
    let blocked := snake1 ++ nazar1.toList
    let food1 : Food := ⟨randomCell blocked r.foodTries, pickFoodType r.foodTypeSeed⟩
    applyEvent prevEventId u.line u.tone
      { next with snake := snake1, direction := direction, pendingDirection := direction,
                  food := food1, nazar := nazar1, score := score2,
                  bestScore := max next.bestScore score2,
                  speedBoostUntil := u.speedBoostUntil, slowUntil := u.slowUntil,
                  freezeUntil := u.freezeUntil, teaStreak := u.teaStreak,
                  drunkUntil := u.drunkUntil, overlayKey := u.overlayKey,
                  overlayUntil := u.overlayUntil, lastStepAt := now }
  else
    applyEvent prevEventId line1 tone1
      { next with snake := snake0.dropLast, direction := direction, pendingDirection := direction,
                  nazar := nazar1, score := score1,
                  bestScore := max next.bestScore score1,
                  speedBoostUntil := speedBoostUntil1,
                  overlayKey := ov.1, overlayUntil := ov.2, lastStepAt := now }

/-- The movement part of the tick body: new head, self-collision check (ending
the run), otherwise the movement commit. -/
def tickMove (prevEventId : Nat) (next : GameState) (now : Nat) (r : TickRand)
    (line : Option String) (tone : Option ToneKey) : GameState :=
  let direction := next.pendingDirection
  let newHead := computeNewHead next now r.wobbleLeft
  if next.snake.any (fun part => samePoint part newHead) then
    let overLine := randomFrom DEATH_LINES "" r.deathLineSeed
    applyEvent prevEventId (some overLine) (some ToneKey.dead)
      { next with phase := .game_over, gameOverLine := overLine,
                  bestScore := max next.bestScore next.score }
  else
    tickEat prevEventId next now r line tone newHead direction

/-- One run of the source's `setInterval` callback: the non-running branch only
refreshes the clock (and clears `eventTone`); the running branch performs the
event steps, the three skip checks (red light, tea freeze, speed gate), and
otherwise the movement. The speed gate's `now - next.lastStepAt` uses truncated
Nat subtraction: with the monotone clock `now ≥ lastStepAt` it equals the JS
difference, and for `now < lastStepAt` both give a value below the (positive)
speed, i.e. the same skip. -/
def tick (prev : GameState) (now : Nat) (r : TickRand) : GameState :=
  if prev.phase ≠ GamePhase.running then
    { prev with nowMs := now, eventTone := none }
  else
    let next := tickNext prev now r
    if next.trafficState = TrafficState.red ∧ now < next.trafficUntil then
      applyEvent prev.eventId (tickLine prev now r) (tickTone prev now r) next
    else if now < next.freezeUntil then
      applyEvent prev.eventId (tickLine prev now r) (tickTone prev now r) next
    else if now - next.lastStepAt < getSpeedMs next now then
      applyEvent prev.eventId (tickLine prev now r) (tickTone prev now r) next
    else
      tickMove prev.eventId next now r (tickLine prev now r) (tickTone prev now r)

/-- The reachable game states: an initial state (component mount), closed under
the tick driver, direction input (which only ever requests the four unit
directions), and restart. -/
inductive Reachable : GameState → Prop
  | init (now best : Nat) (r : InitRand) : Reachable (createInitialGame now best r)
  | step (s : GameState) (now : Nat) (r : TickRand) :
      Reachable s → Reachable (tick s now r)
  | turn (s : GameState) (d : Direction) :
      Reachable s → d ∈ [dirUp, dirDown, dirLeft, dirRight] → Reachable (queueTurn s d)
  | restart (s : GameState) (now : Nat) (r : InitRand) :
      Reachable s → Reachable (startNewRun s now r)


/-! ### A scripted full-board game, used to probe the spawn fallbacks

The driver below plays a complete game by choosing every seed: each tick's food
is placed directly in front of the head (always kahve, which has no movement
modifier), the head walks a Hamiltonian tour of the torus, and the clock
advances by exactly 138 ms per tick so the speed gate always opens. The snake
therefore grows on every step until it covers all 240 cells, at which point
`randomCell` exhausts its scan and returns the (0,0) fallback for the food and
then for the charm. -/

/-- Normalize a coordinate delta on the torus to a unit step. -/
def normDelta (d m : Int) : Int := if d > 1 then d - m else if d < -1 then d + m else d

/-- The unit direction leading from `a` to `b` on the torus. -/
def dirBetween (a b : Point) : Direction := ⟨normDelta (b.x - a.x) 20, normDelta (b.y - a.y) 12⟩

/-- One full row of the tour, entered at `x0` and walked right or left with
wraparound. -/
def rowPath (x0 y : Int) (goRight : Bool) : List Point :=
  (List.range 20).map fun i =>
    ⟨(x0 + (if goRight then (i : Int) else -(i : Int)) + 40) % 20, y⟩

/-- A Hamiltonian tour of the 236 cells not covered by the initial snake:
finish row 6, then rows 5 down to 0, wrap to row 11 and descend to row 7. -/
def snakePath : List Point :=
  ((List.range 11).map fun i => ⟨9 + (i : Int), 6⟩) ++
  ((List.range 5).map fun i => ⟨(i : Int), 6⟩) ++
  rowPath 4 5 false ++ rowPath 5 4 true ++ rowPath 4 3 false ++ rowPath 5 2 true ++
  rowPath 4 1 false ++ rowPath 5 0 true ++ rowPath 4 11 false ++ rowPath 5 10 true ++
  rowPath 4 9 false ++ rowPath 5 8 true ++ rowPath 4 7 false

/-- The head position after each tick: the tour plus a final visit to (5,6),
the cell vacated by the single tail pop of the charm-consumption tick. -/
def headSeq : List Point := ⟨8, 6⟩ :: (snakePath ++ [⟨5, 6⟩])

/-- The food-placement seed for tick `j`: one try aimed at the next head cell.
Tick 116 aims past the charm cell (the charm spawns at (5,0) = headSeq[117],
blocking it for food), tick 117 eats nothing (it consumes the charm), and from
tick 237 on the board is full, so no tries are supplied. -/
def foodTargetSeed (j : Nat) : List (Nat × Nat) :=
  if j = 116 then [((headSeq.getD 118 ⟨0, 0⟩).x.toNat, (headSeq.getD 118 ⟨0, 0⟩).y.toNat)]
  else if j = 117 then []
  else if j ≥ 237 then []
  else [((headSeq.getD (j + 1) ⟨0, 0⟩).x.toNat, (headSeq.getD (j + 1) ⟨0, 0⟩).y.toNat)]

/-- The scripted randomness of tick `j`: maximal delays for both random events,
green lights only, kahve as every respawned food type, and the single charm
spawn aimed at (5,0). -/
def trForTick (j : Nat) : TickRand :=
  { trafficRevertDelaySeed := 5000, goesRed := false, trafficRollDelaySeed := 5000,
    nazarTries := [(5, 0)], nazarDelaySeed := 6000, wobbleLeft := false,
    deathLineSeed := 0, fortuneLineSeed := 0, eatLineSeed := 0,
    foodTries := foodTargetSeed j, foodTypeSeed := 9 }

/-- An interaction with the running game: a direction request or a tick. -/
inductive Act
  | turn (d : Direction)
  | tk (now : Nat) (r : TickRand)

/-- Apply one interaction. -/
def applyAct (s : GameState) : Act → GameState
  | .turn d => queueTurn s d
  | .tk now r => tick s now r

/-- Apply a schedule of interactions in order. -/
def runActs (s : GameState) (acts : List Act) : GameState := acts.foldl applyAct s

/-- The travel direction of tick `j` along `headSeq` (initially right). -/
def dirAt (j : Nat) : Direction :=
  if j = 0 then dirRight
  else dirBetween (headSeq.getD (j - 1) ⟨0, 0⟩) (headSeq.getD j ⟨0, 0⟩)

/-- The interactions of tick `j`: a turn request when the tour bends, then the
tick itself at time 138·j. -/
def actsForTick (j : Nat) : List Act :=
  (if dirAt j = dirAt (j - 1) then [] else [Act.turn (dirAt j)]) ++
    [Act.tk (138 * j) (trForTick j)]

/-- The complete schedule: 237 movement ticks covering the board, then a late
tick at 50000 ms on the full board, whose charm spawn falls back to (0,0) -
the same cell the last food respawn fell back to. -/
def traceActs : List Act :=
  ((List.range 237).flatMap fun i => actsForTick (i + 1)) ++ [Act.tk 50000 (trForTick 238)]

/-- Init randomness for the scripted game: first food at (9,6) of type kahve,
first traffic roll at 13000 ms, first charm spawn due at 16000 ms. -/
def c9Rand : InitRand := ⟨[(9, 6)], 9, 4000, 6000⟩

/-- The scripted game's starting state. -/
def c9Start : GameState := startNewRun (createInitialGame 0 0 c9Rand) 0 c9Rand

/-- The state at the end of the scripted schedule. -/
def c9Bad : GameState := runActs c9Start traceActs

/-- Requests in a schedule only use the four unit directions. -/
def actOk : Act → Bool
  | .turn d => d == dirUp || d == dirDown || d == dirLeft || d == dirRight
  | .tk _ _ => true

/-- The scripted game's state after 150 interactions (137 ticks): written out
so the long evaluation can be checked in two halves. The snake holds the last
138 head positions plus two initial segments; the single pop happened at tick
117 when the charm at (5,0) was consumed. -/
def c9Mid : GameState :=
  { phase := .running
    bestScore := 1364
    snake := ((List.range 138).reverse.map fun i => headSeq.getD i ⟨0, 0⟩) ++ [⟨7, 6⟩, ⟨6, 6⟩]
    direction := dirUp
    pendingDirection := dirUp
    food := ⟨⟨3, 11⟩, .kahve⟩
    nazar := none
    score := 1364
    lastStepAt := 18906
    nowMs := 18906
    speedBoostUntil := 19746
    slowUntil := 0
    freezeUntil := 0
    teaStreak := 0
    trafficState := .none
    trafficUntil := 0
    nextTrafficAt := 31388
    nextNazarAt := 34008
    drunkUntil := 0
    overlayKey := none
    overlayUntil := 0
    gameOverLine := ""
    voiceLine := "Fal: kismetin aciliyor."
    eventId := 138
    eventTone := some ToneKey.fortune }


/-! ### Basic facts about the random-cell picker and the grid -/

/-! ### Frame lemmas: which fields each tick component leaves unchanged -/

/-- The game-over state a colliding tick commits (before the flavor event). -/
def collideState (s : GameState) (now : Nat) (r : TickRand) : GameState :=
  { tickNext s now r with
      phase := .game_over,
      gameOverLine := randomFrom DEATH_LINES "" r.deathLineSeed,
      bestScore := max (tickNext s now r).bestScore (tickNext s now r).score }

/-- The nazar charm and the food occupy different cells. -/
abbrev NazarFoodDisjoint (s : GameState) : Prop :=
  ∀ c, s.nazar = some c → c ≠ s.food.pt

/-- A default tick randomness record (all seeds zero, no tries supplied). -/
def rZero : TickRand := ⟨0, false, 0, [], 0, false, 0, 0, 0, [], 0⟩

/-- A default init randomness record. -/
def irZero : InitRand := ⟨[], 0, 0, 0⟩

/-- The reference scenario of the spec: the fresh snake about to eat a doner at
(9,6), with both random events scheduled far in the future. -/
def c1State : GameState :=
  { createInitialGame 0 0 irZero with
      phase := .running,
      food := ⟨⟨9, 6⟩, .doner⟩,
      nextTrafficAt := 1000000,
      nextNazarAt := 1000000 }

/-- A state whose queued left turn drives the head straight into the neck. -/
def c2State : GameState :=
  { createInitialGame 0 0 irZero with
      phase := .running,
      pendingDirection := dirLeft,
      nazar := some ⟨2, 2⟩,
      food := ⟨⟨3, 3⟩, .simit⟩,
      nextTrafficAt := 1000000,
      nextNazarAt := 1000000 }

/-- A running snake hugging the right edge, food far away. -/
def c3State : GameState :=
  { createInitialGame 0 0 irZero with
      phase := .running,
      snake := [⟨19, 6⟩, ⟨18, 6⟩, ⟨17, 6⟩, ⟨16, 6⟩],
      food := ⟨⟨3, 3⟩, .simit⟩,
      nextTrafficAt := 1000000,
      nextNazarAt := 1000000 }

/-- A one-segment variant of `c3State` heading in direction `d`. -/
def edgeState (sn : List Point) (d : Direction) : GameState :=
  { c3State with snake := sn, direction := d, pendingDirection := d }

/-- A running state about to eat its 5th consecutive cay. -/
def c4State : GameState :=
  { createInitialGame 0 0 irZero with
      phase := .running,
      food := ⟨⟨9, 6⟩, .cay⟩,
      teaStreak := 4,
      nextTrafficAt := 1000000,
      nextNazarAt := 1000000 }

/-- Init randomness that places the first food at (9,6) with type doner. -/
def c6Rand : InitRand := ⟨[(9, 6)], 3, 0, 0⟩

/-- A reachable state (init, restart, one tick eating a doner) whose snake
carries a duplicated tail segment. -/
def c6Dup : GameState :=
  tick (startNewRun (createInitialGame 0 0 c6Rand) 0 c6Rand) 1000 rZero

/-- A game-over state used to exhibit queueTurn's game-over guard. -/
def c7State : GameState :=
  { createInitialGame 0 0 irZero with phase := .game_over }

/-- A non-running state carrying a pending death tone. -/
def c8State : GameState :=
  { createInitialGame 0 0 irZero with phase := .game_over, eventTone := some ToneKey.dead }

/-- A running state whose head is about to step onto the charm while the food
sits elsewhere. -/
def c9State : GameState :=
  { createInitialGame 0 0 irZero with
      phase := .running,
      nazar := some ⟨9, 6⟩,
      food := ⟨⟨3, 3⟩, .simit⟩,
      nextTrafficAt := 1000000,
      nextNazarAt := 1000000 }

/-- A game-over state for the queueTurn no-op check. -/
def c10State : GameState :=
  { createInitialGame 3 7 irZero with phase := .game_over }

/-- If some grid cell is outside the excluded set, `randomCell` returns a cell
outside the excluded set (either a successful random try or the scan fallback). -/
theorem randomCell_not_mem (excluded : List Point) (tries : List (Nat × Nat))
    (h : ∃ p ∈ allCells, p ∉ excluded) : randomCell excluded tries ∉ excluded := by
  unfold randomCell
  split
  case h_1 t ht =>
    have := List.find?_some ht
    simpa using this
  case h_2 hnone =>
    split
    case h_1 p hp =>
      have := List.find?_some hp
      simpa using this
    case h_2 hscan =>
      exfalso
      obtain ⟨p, hp, hpe⟩ := h
      have := List.find?_eq_none.mp hscan p hp
      simp at this
      exact hpe this

set_option maxRecDepth 100000 in
/-- The 240 grid cells are pairwise distinct. -/
theorem allCells_nodup : allCells.Nodup := by decide

set_option maxRecDepth 100000 in
/-- The grid has 240 cells. -/
theorem allCells_length : allCells.length = 240 := by decide

/-- Pigeonhole: an excluded list with fewer than 240 entries cannot cover the
grid, so a free cell exists. -/
theorem exists_free_cell (excluded : List Point) (h : excluded.length < 240) :
    ∃ p ∈ allCells, p ∉ excluded := by
  by_contra hc
  push_neg at hc
  have hsub : allCells ⊆ excluded := fun p hp => hc p hp
  have := (allCells_nodup.subperm hsub).length_le
  rw [allCells_length] at this
  omega

theorem applyEvent_score (e : Nat) (l : Option String) (t : Option ToneKey) (s : GameState) :
    (applyEvent e l t s).score = s.score := by
  unfold applyEvent; cases l <;> cases t <;> rfl

theorem applyEvent_bestScore (e : Nat) (l : Option String) (t : Option ToneKey) (s : GameState) :
    (applyEvent e l t s).bestScore = s.bestScore := by
  unfold applyEvent; cases l <;> cases t <;> rfl

theorem applyEvent_snake (e : Nat) (l : Option String) (t : Option ToneKey) (s : GameState) :
    (applyEvent e l t s).snake = s.snake := by
  unfold applyEvent; cases l <;> cases t <;> rfl

theorem applyEvent_food (e : Nat) (l : Option String) (t : Option ToneKey) (s : GameState) :
    (applyEvent e l t s).food = s.food := by
  unfold applyEvent; cases l <;> cases t <;> rfl

theorem applyEvent_nazar (e : Nat) (l : Option String) (t : Option ToneKey) (s : GameState) :
    (applyEvent e l t s).nazar = s.nazar := by
  unfold applyEvent; cases l <;> cases t <;> rfl

theorem applyEvent_phase (e : Nat) (l : Option String) (t : Option ToneKey) (s : GameState) :
    (applyEvent e l t s).phase = s.phase := by
  unfold applyEvent; cases l <;> cases t <;> rfl

theorem applyEvent_teaStreak (e : Nat) (l : Option String) (t : Option ToneKey) (s : GameState) :
    (applyEvent e l t s).teaStreak = s.teaStreak := by
  unfold applyEvent; cases l <;> cases t <;> rfl

theorem applyEvent_speedBoostUntil (e : Nat) (l : Option String) (t : Option ToneKey) (s : GameState) :
    (applyEvent e l t s).speedBoostUntil = s.speedBoostUntil := by
  unfold applyEvent; cases l <;> cases t <;> rfl

theorem applyEvent_slowUntil (e : Nat) (l : Option String) (t : Option ToneKey) (s : GameState) :
    (applyEvent e l t s).slowUntil = s.slowUntil := by
  unfold applyEvent; cases l <;> cases t <;> rfl

theorem applyEvent_freezeUntil (e : Nat) (l : Option String) (t : Option ToneKey) (s : GameState) :
    (applyEvent e l t s).freezeUntil = s.freezeUntil := by
  unfold applyEvent; cases l <;> cases t <;> rfl

theorem applyEvent_drunkUntil (e : Nat) (l : Option String) (t : Option ToneKey) (s : GameState) :
    (applyEvent e l t s).drunkUntil = s.drunkUntil := by
  unfold applyEvent; cases l <;> cases t <;> rfl

theorem applyEvent_lastStepAt (e : Nat) (l : Option String) (t : Option ToneKey) (s : GameState) :
    (applyEvent e l t s).lastStepAt = s.lastStepAt := by
  unfold applyEvent; cases l <;> cases t <;> rfl

theorem applyEvent_pendingDirection (e : Nat) (l : Option String) (t : Option ToneKey) (s : GameState) :
    (applyEvent e l t s).pendingDirection = s.pendingDirection := by
  unfold applyEvent; cases l <;> cases t <;> rfl

theorem tickNext_score (s : GameState) (now : Nat) (r : TickRand) :
    (tickNext s now r).score = s.score := by
  unfold tickNext tickEvents tickNazarSpawn tickTrafficRoll tickTrafficRevert
  dsimp only
  repeat' split
  all_goals rfl

theorem tickNext_bestScore (s : GameState) (now : Nat) (r : TickRand) :
    (tickNext s now r).bestScore = s.bestScore := by
  unfold tickNext tickEvents tickNazarSpawn tickTrafficRoll tickTrafficRevert
  dsimp only
  repeat' split
  all_goals rfl

theorem tickNext_snake (s : GameState) (now : Nat) (r : TickRand) :
    (tickNext s now r).snake = s.snake := by
  unfold tickNext tickEvents tickNazarSpawn tickTrafficRoll tickTrafficRevert
  dsimp only
  repeat' split
  all_goals rfl

theorem tickNext_food (s : GameState) (now : Nat) (r : TickRand) :
    (tickNext s now r).food = s.food := by
  unfold tickNext tickEvents tickNazarSpawn tickTrafficRoll tickTrafficRevert
  dsimp only
  repeat' split
  all_goals rfl

theorem tickNext_phase (s : GameState) (now : Nat) (r : TickRand) :
    (tickNext s now r).phase = s.phase := by
  unfold tickNext tickEvents tickNazarSpawn tickTrafficRoll tickTrafficRevert
  dsimp only
  repeat' split
  all_goals rfl

theorem tickNext_pendingDirection (s : GameState) (now : Nat) (r : TickRand) :
    (tickNext s now r).pendingDirection = s.pendingDirection := by
  unfold tickNext tickEvents tickNazarSpawn tickTrafficRoll tickTrafficRevert
  dsimp only
  repeat' split
  all_goals rfl

theorem tickNext_teaStreak (s : GameState) (now : Nat) (r : TickRand) :
    (tickNext s now r).teaStreak = s.teaStreak := by
  unfold tickNext tickEvents tickNazarSpawn tickTrafficRoll tickTrafficRevert
  dsimp only
  repeat' split
  all_goals rfl

theorem tickNext_freezeUntil (s : GameState) (now : Nat) (r : TickRand) :
    (tickNext s now r).freezeUntil = s.freezeUntil := by
  unfold tickNext tickEvents tickNazarSpawn tickTrafficRoll tickTrafficRevert
  dsimp only
  repeat' split
  all_goals rfl

theorem tickNext_speedBoostUntil (s : GameState) (now : Nat) (r : TickRand) :
    (tickNext s now r).speedBoostUntil = s.speedBoostUntil := by
  unfold tickNext tickEvents tickNazarSpawn tickTrafficRoll tickTrafficRevert
  dsimp only
  repeat' split
  all_goals rfl

theorem tickNext_slowUntil (s : GameState) (now : Nat) (r : TickRand) :
    (tickNext s now r).slowUntil = s.slowUntil := by
  unfold tickNext tickEvents tickNazarSpawn tickTrafficRoll tickTrafficRevert
  dsimp only
  repeat' split
  all_goals rfl

theorem tickNext_drunkUntil (s : GameState) (now : Nat) (r : TickRand) :
    (tickNext s now r).drunkUntil = s.drunkUntil := by
  unfold tickNext tickEvents tickNazarSpawn tickTrafficRoll tickTrafficRevert
  dsimp only
  repeat' split
  all_goals rfl

theorem tickNext_lastStepAt (s : GameState) (now : Nat) (r : TickRand) :
    (tickNext s now r).lastStepAt = s.lastStepAt := by
  unfold tickNext tickEvents tickNazarSpawn tickTrafficRoll tickTrafficRevert
  dsimp only
  repeat' split
  all_goals rfl

/-- A present nazar is never removed by the event steps (the spawn only fires
when no nazar is present). -/
theorem tickNext_nazar_some (s : GameState) (now : Nat) (r : TickRand) (c : Point)
    (h : s.nazar = some c) : (tickNext s now r).nazar = some c := by
  unfold tickNext tickEvents tickNazarSpawn tickTrafficRoll tickTrafficRevert
  dsimp only
  repeat' split
  all_goals simp_all

/-- The event steps either leave the nazar unchanged or spawn one on a cell
chosen outside the snake and the food. -/
theorem tickNext_nazar_cases (s : GameState) (now : Nat) (r : TickRand) :
    (tickNext s now r).nazar = s.nazar ∨
      (s.nazar = none ∧
        (tickNext s now r).nazar =
          some (randomCell (s.snake ++ [s.food.pt]) r.nazarTries)) := by
  unfold tickNext tickEvents tickNazarSpawn tickTrafficRoll tickTrafficRevert
  dsimp only
  repeat' split
  all_goals simp_all

/-- Boolean point equality agrees with propositional equality. -/
theorem samePoint_iff (a b : Point) : samePoint a b = true ↔ a = b := by
  unfold samePoint
  cases a; cases b
  simp [Point.mk.injEq]

/-- Every tick takes exactly one of four shapes: the non-running clock refresh,
a skipped movement (red light, tea freeze, or speed gate), a self-collision
game over, or a movement commit. -/
theorem tick_shape (s : GameState) (now : Nat) (r : TickRand) :
    tick s now r = { s with nowMs := now, eventTone := none } ∨
    (s.phase = GamePhase.running ∧
      tick s now r = applyEvent s.eventId (tickLine s now r) (tickTone s now r) (tickNext s now r)) ∨
    (s.phase = GamePhase.running ∧
      (tickNext s now r).snake.any
        (fun part => samePoint part (computeNewHead (tickNext s now r) now r.wobbleLeft)) = true ∧
      tick s now r = applyEvent s.eventId (some (randomFrom DEATH_LINES "" r.deathLineSeed))
        (some ToneKey.dead) (collideState s now r)) ∨
    (s.phase = GamePhase.running ∧
      (tickNext s now r).snake.any
        (fun part => samePoint part (computeNewHead (tickNext s now r) now r.wobbleLeft)) = false ∧
      tick s now r = tickEat s.eventId (tickNext s now r) now r (tickLine s now r)
        (tickTone s now r) (computeNewHead (tickNext s now r) now r.wobbleLeft)
        (tickNext s now r).pendingDirection) := by
  by_cases hrun : s.phase = GamePhase.running
  · unfold tick
    rw [if_neg (by simp [hrun])]
    dsimp only
    by_cases h1 : (tickNext s now r).trafficState = TrafficState.red ∧ now < (tickNext s now r).trafficUntil
    · rw [if_pos h1]; right; left; exact ⟨hrun, rfl⟩
    · rw [if_neg h1]
      by_cases h2 : now < (tickNext s now r).freezeUntil
      · rw [if_pos h2]; right; left; exact ⟨hrun, rfl⟩
      · rw [if_neg h2]
        by_cases h3 : now - (tickNext s now r).lastStepAt < getSpeedMs (tickNext s now r) now
        · rw [if_pos h3]; right; left; exact ⟨hrun, rfl⟩
        · rw [if_neg h3]
          unfold tickMove
          dsimp only
          by_cases hhit : (tickNext s now r).snake.any
              (fun part => samePoint part (computeNewHead (tickNext s now r) now r.wobbleLeft)) = true
          · rw [if_pos hhit]
            right; right; left
            exact ⟨hrun, hhit, rfl⟩
          · rw [if_neg hhit]
            right; right; right
            exact ⟨hrun, by simpa using hhit, rfl⟩
  · left
    unfold tick
    rw [if_pos hrun]

/-- A movement commit that eats grows the snake by the new head plus the
duplicated tail copies demanded by the food's growth value. -/
theorem tickEat_snake_eat (e : Nat) (next : GameState) (now : Nat) (r : TickRand)
    (l : Option String) (t : Option ToneKey) (nh : Point) (d : Direction)
    (heat : samePoint nh next.food.pt = true) :
    (tickEat e next now r l t nh d).snake =
      if (FOOD_META next.food.type).grow > 1 then
        (nh :: next.snake) ++
          List.replicate ((FOOD_META next.food.type).grow - 1) (next.snake.getLastD ⟨0, 0⟩)
      else nh :: next.snake := by
  unfold tickEat
  dsimp only
  rw [if_pos heat]
  simp [applyEvent_snake]

/-- A movement commit that does not eat pops the tail. -/
theorem tickEat_snake_noeat (e : Nat) (next : GameState) (now : Nat) (r : TickRand)
    (l : Option String) (t : Option ToneKey) (nh : Point) (d : Direction)
    (heat : samePoint nh next.food.pt = false) :
    (tickEat e next now r l t nh d).snake = (nh :: next.snake).dropLast := by
  unfold tickEat
  dsimp only
  rw [if_neg (by simp [heat])]
  simp [applyEvent_snake]

/-- A movement commit that does not eat leaves the food in place. -/
theorem tickEat_food_noeat (e : Nat) (next : GameState) (now : Nat) (r : TickRand)
    (l : Option String) (t : Option ToneKey) (nh : Point) (d : Direction)
    (heat : samePoint nh next.food.pt = false) :
    (tickEat e next now r l t nh d).food = next.food := by
  unfold tickEat
  dsimp only
  rw [if_neg (by simp [heat])]
  simp [applyEvent_food]

/-- A movement commit never decreases the score. -/
theorem tickEat_score_mono (e : Nat) (next : GameState) (now : Nat) (r : TickRand)
    (l : Option String) (t : Option ToneKey) (nh : Point) (d : Direction) :
    next.score ≤ (tickEat e next now r l t nh d).score := by
  unfold tickEat
  dsimp only
  split
  · rw [applyEvent_score]
    dsimp only
    split <;> omega
  · rw [applyEvent_score]
    dsimp only
    split <;> omega

/-- A movement commit sets `bestScore` to the maximum of the old best and the
new score. -/
theorem tickEat_bestScore_eq (e : Nat) (next : GameState) (now : Nat) (r : TickRand)
    (l : Option String) (t : Option ToneKey) (nh : Point) (d : Direction) :
    (tickEat e next now r l t nh d).bestScore =
      max next.bestScore (tickEat e next now r l t nh d).score := by
  unfold tickEat
  dsimp only
  split <;> rw [applyEvent_bestScore, applyEvent_score]

/-- Every food grows the snake by at most 2. -/
theorem FOOD_META_grow_le (ft : FoodType) : (FOOD_META ft).grow ≤ 2 := by
  cases ft <;> simp [FOOD_META]

/-- Tea-streak bookkeeping of a movement commit that eats a cay: the streak
increments, and reaching 5 resets it and sets the 3-second freeze. -/
theorem tickEat_cay (e : Nat) (next : GameState) (now : Nat) (r : TickRand)
    (l : Option String) (t : Option ToneKey) (nh : Point) (d : Direction)
    (heat : samePoint nh next.food.pt = true)
    (hcay : next.food.type = FoodType.cay) :
    (next.teaStreak + 1 ≥ 5 →
       (tickEat e next now r l t nh d).teaStreak = 0 ∧
       (tickEat e next now r l t nh d).freezeUntil = now + 3000) ∧
    (next.teaStreak + 1 < 5 →
       (tickEat e next now r l t nh d).teaStreak = next.teaStreak + 1 ∧
       (tickEat e next now r l t nh d).freezeUntil = next.freezeUntil) := by
  unfold tickEat
  dsimp only
  rw [if_pos heat, hcay]
  unfold foodEffect
  dsimp only
  constructor
  · intro h5
    rw [if_pos h5]
    simp [applyEvent_teaStreak, applyEvent_freezeUntil]
  · intro h5
    rw [if_neg (by omega)]
    simp [applyEvent_teaStreak, applyEvent_freezeUntil]

/-- A movement commit that eats any non-cay food resets the tea streak. -/
theorem tickEat_noncay (e : Nat) (next : GameState) (now : Nat) (r : TickRand)
    (l : Option String) (t : Option ToneKey) (nh : Point) (d : Direction)
    (heat : samePoint nh next.food.pt = true)
    (hnot : next.food.type ≠ FoodType.cay) :
    (tickEat e next now r l t nh d).teaStreak = 0 := by
  unfold tickEat
  dsimp only
  rw [if_pos heat]
  cases hft : next.food.type
  all_goals first
    | exact absurd hft hnot
    | (unfold foodEffect; simp [applyEvent_teaStreak])

/-- A movement commit clears the nazar exactly when the new head touches it. -/
theorem tickEat_nazar_eq (e : Nat) (next : GameState) (now : Nat) (r : TickRand)
    (l : Option String) (t : Option ToneKey) (nh : Point) (d : Direction) :
    (tickEat e next now r l t nh d).nazar =
      if next.nazar.any (fun c => samePoint nh c) then none else next.nazar := by
  unfold tickEat
  dsimp only
  split <;> simp [applyEvent_nazar]

/-- The score of a movement commit that does not eat: unchanged except for the
+4 nazar bonus. -/
theorem tickEat_score_noeat (e : Nat) (next : GameState) (now : Nat) (r : TickRand)
    (l : Option String) (t : Option ToneKey) (nh : Point) (d : Direction)
    (heat : samePoint nh next.food.pt = false) :
    (tickEat e next now r l t nh d).score =
      if next.nazar.any (fun c => samePoint nh c) then next.score + 4 else next.score := by
  unfold tickEat
  dsimp only
  rw [if_neg (by simp [heat])]
  simp [applyEvent_score]

/-- The respawned food of an eating commit lands outside the new snake and off
the live nazar, provided the snake is small enough to leave a free cell. -/
theorem tickEat_food_eat_fresh (e : Nat) (next : GameState) (now : Nat) (r : TickRand)
    (l : Option String) (t : Option ToneKey) (nh : Point) (d : Direction)
    (heat : samePoint nh next.food.pt = true) (hlen : next.snake.length + 4 ≤ 240) :
    (tickEat e next now r l t nh d).food.pt ∉ (tickEat e next now r l t nh d).snake ∧
    (∀ c, (tickEat e next now r l t nh d).nazar = some c →
        (tickEat e next now r l t nh d).food.pt ≠ c) := by
  have hmain : ∀ (sn1 : List Point) (nz : Option Point) (tries : List (Nat × Nat)),
      sn1.length + 1 < 240 →
      randomCell (sn1 ++ nz.toList) tries ∉ sn1 ∧
      (∀ c, nz = some c → randomCell (sn1 ++ nz.toList) tries ≠ c) := by
    intro sn1 nz tries hl
    have hfree := exists_free_cell (sn1 ++ nz.toList) (by
      have hnz : nz.toList.length ≤ 1 := by cases nz <;> simp
      rw [List.length_append]; omega)
    have hnot := randomCell_not_mem _ tries hfree
    constructor
    · intro hmem; exact hnot (List.mem_append_left _ hmem)
    · intro c hc heq
      apply hnot
      apply List.mem_append_right
      rw [heq, hc]
      simp
  unfold tickEat
  dsimp only
  rw [if_pos heat]
  rw [applyEvent_food, applyEvent_snake, applyEvent_nazar]
  dsimp only
  refine hmain _ _ _ ?_
  have hgrow := FOOD_META_grow_le next.food.type
  split
  · simp only [List.length_cons, List.length_append, List.length_replicate]
    omega
  · simp only [List.length_cons]
    omega

theorem tick_score_mono (s : GameState) (now : Nat) (r : TickRand) :
    s.score ≤ (tick s now r).score := by
  rcases tick_shape s now r with hs | ⟨-, hs⟩ | ⟨-, -, hs⟩ | ⟨-, -, hs⟩
  · rw [hs]
  · rw [hs, applyEvent_score, tickNext_score]
  · rw [hs, applyEvent_score]
    unfold collideState
    dsimp only
    rw [tickNext_score]
  · rw [hs]
    calc s.score = (tickNext s now r).score := (tickNext_score s now r).symm
      _ ≤ _ := tickEat_score_mono _ _ _ _ _ _ _ _

theorem tick_bestScore_eq (s : GameState) (now : Nat) (r : TickRand)
    (hinv : s.score ≤ s.bestScore) :
    (tick s now r).bestScore = max s.bestScore (tick s now r).score := by
  rcases tick_shape s now r with hs | ⟨-, hs⟩ | ⟨-, -, hs⟩ | ⟨-, -, hs⟩
  · rw [hs]
    dsimp only
    omega
  · rw [hs, applyEvent_bestScore, applyEvent_score, tickNext_bestScore, tickNext_score]
    omega
  · rw [hs, applyEvent_bestScore, applyEvent_score]
    unfold collideState
    dsimp only
    rw [tickNext_bestScore, tickNext_score]
  · rw [hs, tickEat_bestScore_eq, tickNext_bestScore]

theorem tick_bestScore_mono (s : GameState) (now : Nat) (r : TickRand) :
    s.bestScore ≤ (tick s now r).bestScore := by
  rcases tick_shape s now r with hs | ⟨-, hs⟩ | ⟨-, -, hs⟩ | ⟨-, -, hs⟩
  · rw [hs]
  · rw [hs, applyEvent_bestScore, tickNext_bestScore]
  · rw [hs, applyEvent_bestScore]
    unfold collideState
    dsimp only
    rw [tickNext_bestScore]
    exact le_max_left _ _
  · rw [hs, tickEat_bestScore_eq, tickNext_bestScore]
    exact le_max_left _ _

theorem tick_snake_length (s : GameState) (now : Nat) (r : TickRand)
    (h : 1 ≤ s.snake.length) : 1 ≤ (tick s now r).snake.length := by
  rcases tick_shape s now r with hs | ⟨-, hs⟩ | ⟨-, -, hs⟩ | ⟨-, -, hs⟩
  · rw [hs]
    exact h
  · rw [hs, applyEvent_snake, tickNext_snake]
    exact h
  · rw [hs, applyEvent_snake]
    unfold collideState
    dsimp only
    rw [tickNext_snake]
    exact h
  · rw [hs]
    by_cases heat : samePoint (computeNewHead (tickNext s now r) now r.wobbleLeft)
        (tickNext s now r).food.pt = true
    · rw [tickEat_snake_eat _ _ _ _ _ _ _ _ heat]
      split <;> simp
    · rw [tickEat_snake_noeat _ _ _ _ _ _ _ _ (by simpa using heat)]
      rw [List.length_dropLast, List.length_cons, tickNext_snake]
      omega

theorem queueTurn_frame (s : GameState) (d : Direction) :
    (queueTurn s d).score = s.score ∧ (queueTurn s d).bestScore = s.bestScore ∧
    (queueTurn s d).snake = s.snake ∧ (queueTurn s d).food = s.food ∧
    (queueTurn s d).nazar = s.nazar := by
  unfold queueTurn
  dsimp only
  split
  · exact ⟨rfl, rfl, rfl, rfl, rfl⟩
  · split <;> exact ⟨rfl, rfl, rfl, rfl, rfl⟩

theorem startNewRun_bestScore (s : GameState) (now : Nat) (r : InitRand) :
    (startNewRun s now r).bestScore = s.bestScore := rfl

theorem startNewRun_score (s : GameState) (now : Nat) (r : InitRand) :
    (startNewRun s now r).score = 0 := rfl

theorem startNewRun_snake (s : GameState) (now : Nat) (r : InitRand) :
    (startNewRun s now r).snake = [⟨8, 6⟩, ⟨7, 6⟩, ⟨6, 6⟩, ⟨5, 6⟩] := rfl

theorem startNewRun_nazar (s : GameState) (now : Nat) (r : InitRand) :
    (startNewRun s now r).nazar = none := rfl

theorem createInitialGame_nazar (now best : Nat) (r : InitRand) :
    (createInitialGame now best r).nazar = none := rfl

theorem reachable_best_ge_score (s : GameState) (h : Reachable s) : s.score ≤ s.bestScore := by
  induction h with
  | init now best r => exact Nat.zero_le _
  | step s now r hr ih =>
    rw [tick_bestScore_eq s now r ih]
    exact le_max_right _ _
  | turn s d hr hd ih =>
    obtain ⟨h1, h2, -⟩ := queueTurn_frame s d
    rw [h1, h2]
    exact ih
  | restart s now r hr ih =>
    rw [startNewRun_score, startNewRun_bestScore]
    exact Nat.zero_le _

theorem reachable_snake_length (s : GameState) (h : Reachable s) : 1 ≤ s.snake.length := by
  induction h with
  | init now best r => simp [createInitialGame]
  | step s now r hr ih => exact tick_snake_length s now r ih
  | turn s d hr hd ih =>
    obtain ⟨-, -, h3, -⟩ := queueTurn_frame s d
    rw [h3]
    exact ih
  | restart s now r hr ih =>
    rw [startNewRun_snake]
    simp

theorem collideState_nazar (s : GameState) (now : Nat) (r : TickRand) :
    (collideState s now r).nazar = (tickNext s now r).nazar := rfl

theorem collideState_food (s : GameState) (now : Nat) (r : TickRand) :
    (collideState s now r).food = (tickNext s now r).food := rfl

/-- A cell drawn against an exclusion list ending in `p` avoids both the prefix
and `p`, provided the grid is not covered. -/
theorem randomCell_append_last (l : List Point) (p : Point) (tries : List (Nat × Nat))
    (h : l.length + 1 < 240) :
    randomCell (l ++ [p]) tries ∉ l ∧ randomCell (l ++ [p]) tries ≠ p := by
  have hfree := exists_free_cell (l ++ [p]) (by rw [List.length_append]; simpa using h)
  have hnot := randomCell_not_mem _ tries hfree
  refine ⟨fun hm => hnot (List.mem_append_left _ hm), fun he => hnot ?_⟩
  apply List.mem_append_right
  rw [he]
  simp

/-- One tick preserves nazar/food cell disjointness as long as the snake leaves
enough free cells for the spawn draws. -/
theorem tick_nazar_food_disjoint (s : GameState) (now : Nat) (r : TickRand)
    (hlen : s.snake.length + 4 ≤ 240) (hdis : NazarFoodDisjoint s) :
    NazarFoodDisjoint (tick s now r) := by
  intro c hc
  rcases tick_shape s now r with hs | ⟨-, hs⟩ | ⟨-, -, hs⟩ | ⟨-, -, hs⟩
  · rw [hs] at hc ⊢
    exact hdis c hc
  · rw [hs, applyEvent_nazar] at hc
    rw [hs, applyEvent_food, tickNext_food]
    rcases tickNext_nazar_cases s now r with h | ⟨-, h⟩
    · rw [h] at hc
      exact hdis c hc
    · rw [h] at hc
      cases hc
      exact (randomCell_append_last s.snake s.food.pt r.nazarTries (by omega)).2
  · rw [hs, applyEvent_nazar, collideState_nazar] at hc
    rw [hs, applyEvent_food, collideState_food, tickNext_food]
    rcases tickNext_nazar_cases s now r with h | ⟨-, h⟩
    · rw [h] at hc
      exact hdis c hc
    · rw [h] at hc
      cases hc
      exact (randomCell_append_last s.snake s.food.pt r.nazarTries (by omega)).2
  · by_cases heat : samePoint (computeNewHead (tickNext s now r) now r.wobbleLeft)
        (tickNext s now r).food.pt = true
    · rw [hs] at hc ⊢
      have hfresh := tickEat_food_eat_fresh s.eventId (tickNext s now r) now r
        (tickLine s now r) (tickTone s now r)
        (computeNewHead (tickNext s now r) now r.wobbleLeft)
        (tickNext s now r).pendingDirection heat (by rw [tickNext_snake]; omega)
      intro he
      exact hfresh.2 c hc he.symm
    · rw [hs] at hc ⊢
      rw [tickEat_food_noeat _ _ _ _ _ _ _ _ (by simpa using heat), tickNext_food]
      rw [tickEat_nazar_eq] at hc
      by_cases hhit : (tickNext s now r).nazar.any
          (fun c0 => samePoint (computeNewHead (tickNext s now r) now r.wobbleLeft) c0) = true
      · rw [if_pos hhit] at hc
        cases hc
      · rw [if_neg hhit] at hc
        rcases tickNext_nazar_cases s now r with h | ⟨-, h⟩
        · rw [h] at hc
          exact hdis c hc
        · rw [h] at hc
          cases hc
          exact (randomCell_append_last s.snake s.food.pt r.nazarTries (by omega)).2

/-- If the charm sits on a different cell than the food and a tick removes it,
that tick consumed the charm: it paid exactly the +4 bonus and left the food
untouched. -/
theorem tick_nazar_consume (s : GameState) (now : Nat) (r : TickRand) (c : Point)
    (hz : s.nazar = some c) (hne : c ≠ s.food.pt)
    (hcons : (tick s now r).nazar = none) :
    (tick s now r).food = s.food ∧ (tick s now r).score = s.score + 4 := by
  rcases tick_shape s now r with hs | ⟨-, hs⟩ | ⟨-, -, hs⟩ | ⟨-, -, hs⟩
  · rw [hs] at hcons
    dsimp only at hcons
    rw [hz] at hcons
    cases hcons
  · rw [hs, applyEvent_nazar, tickNext_nazar_some s now r c hz] at hcons
    cases hcons
  · rw [hs, applyEvent_nazar, collideState_nazar, tickNext_nazar_some s now r c hz] at hcons
    cases hcons
  · rw [hs, tickEat_nazar_eq] at hcons
    by_cases hhit : (tickNext s now r).nazar.any
        (fun c0 => samePoint (computeNewHead (tickNext s now r) now r.wobbleLeft) c0) = true
    · have hnz := tickNext_nazar_some s now r c hz
      rw [hnz] at hhit
      simp only [Option.any_some] at hhit
      have hnh : computeNewHead (tickNext s now r) now r.wobbleLeft = c :=
        (samePoint_iff _ _).mp hhit
      have heat : samePoint (computeNewHead (tickNext s now r) now r.wobbleLeft)
          (tickNext s now r).food.pt = false := by
        rw [tickNext_food, hnh]
        by_contra hx
        have hx' : samePoint c s.food.pt = true := by
          cases hb : samePoint c s.food.pt
          · exact absurd hb hx
          · rfl
        exact hne ((samePoint_iff _ _).mp hx')
      rw [hs]
      refine ⟨?_, ?_⟩
      · rw [tickEat_food_noeat _ _ _ _ _ _ _ _ heat, tickNext_food]
      · rw [tickEat_score_noeat _ _ _ _ _ _ _ _ heat, hnz]
        simp only [Option.any_some, hhit, if_true]
        rw [tickNext_score]
    · rw [if_neg hhit, tickNext_nazar_some s now r c hz] at hcons
      cases hcons

/-- A running tick with no pause, an open speed gate and a colliding new head
commits the game-over state. -/
theorem tick_collide_eq (prev : GameState) (now : Nat) (r : TickRand)
    (hrun : prev.phase = GamePhase.running)
    (h1 : ¬((tickNext prev now r).trafficState = TrafficState.red ∧ now < (tickNext prev now r).trafficUntil))
    (h2 : ¬(now < (tickNext prev now r).freezeUntil))
    (h3 : ¬(now - (tickNext prev now r).lastStepAt < getSpeedMs (tickNext prev now r) now))
    (hhit : (tickNext prev now r).snake.any
        (fun part => samePoint part (computeNewHead (tickNext prev now r) now r.wobbleLeft)) = true) :
    tick prev now r = applyEvent prev.eventId (some (randomFrom DEATH_LINES "" r.deathLineSeed))
      (some ToneKey.dead) (collideState prev now r) := by
  unfold tick
  rw [if_neg (by simp [hrun])]
  dsimp only
  rw [if_neg h1, if_neg h2, if_neg h3]
  unfold tickMove
  dsimp only
  rw [if_pos hhit]
  rfl

/-- A running tick with no pause, an open speed gate and a collision-free new
head performs the movement commit. -/
theorem tick_commit_eq (prev : GameState) (now : Nat) (r : TickRand)
    (hrun : prev.phase = GamePhase.running)
    (h1 : ¬((tickNext prev now r).trafficState = TrafficState.red ∧ now < (tickNext prev now r).trafficUntil))
    (h2 : ¬(now < (tickNext prev now r).freezeUntil))
    (h3 : ¬(now - (tickNext prev now r).lastStepAt < getSpeedMs (tickNext prev now r) now))
    (hmiss : (tickNext prev now r).snake.any
        (fun part => samePoint part (computeNewHead (tickNext prev now r) now r.wobbleLeft)) = false) :
    tick prev now r = tickEat prev.eventId (tickNext prev now r) now r (tickLine prev now r)
      (tickTone prev now r) (computeNewHead (tickNext prev now r) now r.wobbleLeft)
      (tickNext prev now r).pendingDirection := by
  unfold tick
  rw [if_neg (by simp [hrun])]
  dsimp only
  rw [if_neg h1, if_neg h2, if_neg h3]
  unfold tickMove
  dsimp only
  rw [if_neg (by simp [hmiss])]

/-- A running tick skipped by the red light, the tea freeze or the speed gate
only applies the event steps. -/
theorem tick_skip_eq (prev : GameState) (now : Nat) (r : TickRand)
    (hrun : prev.phase = GamePhase.running)
    (hskip : ((tickNext prev now r).trafficState = TrafficState.red ∧ now < (tickNext prev now r).trafficUntil) ∨
      now < (tickNext prev now r).freezeUntil ∨
      now - (tickNext prev now r).lastStepAt < getSpeedMs (tickNext prev now r) now) :
    tick prev now r = applyEvent prev.eventId (tickLine prev now r) (tickTone prev now r)
      (tickNext prev now r) := by
  unfold tick
  rw [if_neg (by simp [hrun])]
  dsimp only
  by_cases h1 : (tickNext prev now r).trafficState = TrafficState.red ∧ now < (tickNext prev now r).trafficUntil
  · rw [if_pos h1]
  · rw [if_neg h1]
    by_cases h2 : now < (tickNext prev now r).freezeUntil
    · rw [if_pos h2]
    · rw [if_neg h2]
      rcases hskip with h | h | h
      · exact absurd h h1
      · exact absurd h h2
      · rw [if_pos h]

/-- Every food grows the snake by at least 1. -/
theorem FOOD_META_grow_pos (ft : FoodType) : 1 ≤ (FOOD_META ft).grow := by
  cases ft <;> simp [FOOD_META]

/-- C1: the claim's scenario numbers fail on the code: one tick from the
reference scenario leaves 6 segments, not the claimed 5, because eating a doner
adds the new head (no tail pop) plus one duplicated tail copy: a net +2, not +1,
relative to a non-food step. -/
theorem c1_counterexample :
    (tick c1State 1000 rZero).snake ≠ [⟨9, 6⟩, ⟨8, 6⟩, ⟨7, 6⟩, ⟨6, 6⟩, ⟨5, 6⟩] ∧
    (tick c1State 1000 rZero).snake.length = 6 ∧
    (tick c1State 1000 rZero).snake.length = c1State.snake.length + 2 := by
  decide

/-- C1 (amended): in the reference scenario a tick moves the head to (9,6),
adds 12 to the score, leaves 6 segments (the 5 distinct cells plus one
duplicated tail segment) and respawns the food off the snake; in general a
committed step that eats a doner grows the snake by exactly 2 more segments
than a non-food step (which preserves length). -/
theorem c1_doner_scenario :
    (∀ r : TickRand,
      (tick c1State 1000 r).snake = [⟨9, 6⟩, ⟨8, 6⟩, ⟨7, 6⟩, ⟨6, 6⟩, ⟨5, 6⟩, ⟨5, 6⟩] ∧
      (tick c1State 1000 r).score = 12 ∧
      (tick c1State 1000 r).food.pt ∉ (tick c1State 1000 r).snake) ∧
    (∀ (prev : GameState) (now : Nat) (r : TickRand),
      prev.phase = GamePhase.running →
      ¬((tickNext prev now r).trafficState = TrafficState.red ∧
          now < (tickNext prev now r).trafficUntil) →
      ¬(now < (tickNext prev now r).freezeUntil) →
      ¬(now - (tickNext prev now r).lastStepAt < getSpeedMs (tickNext prev now r) now) →
      (tickNext prev now r).snake.any
        (fun part => samePoint part (computeNewHead (tickNext prev now r) now r.wobbleLeft)) = false →
      ((samePoint (computeNewHead (tickNext prev now r) now r.wobbleLeft) prev.food.pt = true →
          prev.food.type = FoodType.doner →
          (tick prev now r).snake.length = prev.snake.length + 2) ∧
       (samePoint (computeNewHead (tickNext prev now r) now r.wobbleLeft) prev.food.pt = false →
          (tick prev now r).snake.length = prev.snake.length))) := by
  constructor
  · intro r
    have hnext : tickNext c1State 1000 r = { c1State with nowMs := 1000, eventTone := none } := rfl
    refine ⟨rfl, rfl, ?_⟩
    rw [tick_commit_eq c1State 1000 r rfl (by rw [hnext]; decide) (by rw [hnext]; decide)
      (by rw [hnext]; decide) (by rw [hnext]; cases hw : r.wobbleLeft <;> decide)]
    refine (tickEat_food_eat_fresh _ _ _ _ _ _ _ _ ?_ ?_).1
    · rw [hnext]
      cases hw : r.wobbleLeft <;> decide
    · rw [hnext]
      decide
  · intro prev now r hrun h1 h2 h3 hmiss
    rw [tick_commit_eq prev now r hrun h1 h2 h3 hmiss]
    constructor
    · intro heat hdoner
      have heat' : samePoint (computeNewHead (tickNext prev now r) now r.wobbleLeft)
          (tickNext prev now r).food.pt = true := by
        rw [tickNext_food]
        exact heat
      rw [tickEat_snake_eat _ _ _ _ _ _ _ _ heat', tickNext_food, hdoner]
      rw [if_pos (by simp [FOOD_META])]
      simp [FOOD_META, tickNext_snake]
    · intro heat
      have heat' : samePoint (computeNewHead (tickNext prev now r) now r.wobbleLeft)
          (tickNext prev now r).food.pt = false := by
        rw [tickNext_food]
        exact heat
      rw [tickEat_snake_noeat _ _ _ _ _ _ _ _ heat']
      rw [List.length_dropLast, List.length_cons, tickNext_snake]
      omega

/-- C1 witness: the doner growth rule applied at the reference scenario. -/
theorem c1_witness :
    (tick c1State 1000 rZero).snake.length = c1State.snake.length + 2 :=
  (c1_doner_scenario.2 c1State 1000 rZero rfl (by decide) (by decide) (by decide)
    (by decide)).1 (by decide) rfl

/-- C2: on a running tick with the speed gate open, a new head that hits the
snake ends the run: the phase becomes game over, the best score absorbs the
score, and score, food, snake, tea streak, every timed modifier, the step clock
and any live charm are all left untouched. -/
theorem c2_self_collision_terminal (prev : GameState) (now : Nat) (r : TickRand)
    (hrun : prev.phase = GamePhase.running)
    (h1 : ¬((tickNext prev now r).trafficState = TrafficState.red ∧
        now < (tickNext prev now r).trafficUntil))
    (h2 : ¬(now < (tickNext prev now r).freezeUntil))
    (h3 : ¬(now - (tickNext prev now r).lastStepAt < getSpeedMs (tickNext prev now r) now))
    (hhit : (tickNext prev now r).snake.any
        (fun part => samePoint part (computeNewHead (tickNext prev now r) now r.wobbleLeft)) = true) :
    (tick prev now r).phase = GamePhase.game_over ∧
    (tick prev now r).bestScore = max prev.bestScore prev.score ∧
    (tick prev now r).score = prev.score ∧
    (tick prev now r).food = prev.food ∧
    (tick prev now r).snake = prev.snake ∧
    (tick prev now r).teaStreak = prev.teaStreak ∧
    (tick prev now r).speedBoostUntil = prev.speedBoostUntil ∧
    (tick prev now r).slowUntil = prev.slowUntil ∧
    (tick prev now r).freezeUntil = prev.freezeUntil ∧
    (tick prev now r).drunkUntil = prev.drunkUntil ∧
    (tick prev now r).lastStepAt = prev.lastStepAt ∧
    (∀ c, prev.nazar = some c → (tick prev now r).nazar = some c) := by
  rw [tick_collide_eq prev now r hrun h1 h2 h3 hhit]
  refine ⟨?_, ?_, ?_, ?_, ?_, ?_, ?_, ?_, ?_, ?_, ?_, ?_⟩
  · rw [applyEvent_phase]
    rfl
  · rw [applyEvent_bestScore]
    show max (tickNext prev now r).bestScore (tickNext prev now r).score = _
    rw [tickNext_bestScore, tickNext_score]
  · rw [applyEvent_score]
    show (tickNext prev now r).score = _
    rw [tickNext_score]
  · rw [applyEvent_food, collideState_food, tickNext_food]
  · rw [applyEvent_snake]
    show (tickNext prev now r).snake = _
    rw [tickNext_snake]
  · rw [applyEvent_teaStreak]
    show (tickNext prev now r).teaStreak = _
    rw [tickNext_teaStreak]
  · rw [applyEvent_speedBoostUntil]
    show (tickNext prev now r).speedBoostUntil = _
    rw [tickNext_speedBoostUntil]
  · rw [applyEvent_slowUntil]
    show (tickNext prev now r).slowUntil = _
    rw [tickNext_slowUntil]
  · rw [applyEvent_freezeUntil]
    show (tickNext prev now r).freezeUntil = _
    rw [tickNext_freezeUntil]
  · rw [applyEvent_drunkUntil]
    show (tickNext prev now r).drunkUntil = _
    rw [tickNext_drunkUntil]
  · rw [applyEvent_lastStepAt]
    show (tickNext prev now r).lastStepAt = _
    rw [tickNext_lastStepAt]
  · intro c hc
    rw [applyEvent_nazar, collideState_nazar]
    exact tickNext_nazar_some prev now r c hc

/-- C2 witness: the terminality theorem applied at a concrete colliding tick. -/
theorem c2_witness :
    (tick c2State 1000 rZero).phase = GamePhase.game_over ∧
    (tick c2State 1000 rZero).score = c2State.score ∧
    (tick c2State 1000 rZero).snake = c2State.snake ∧
    (tick c2State 1000 rZero).nazar = some ⟨2, 2⟩ := by
  obtain ⟨p1, -, p3, -, p5, -, -, -, -, -, -, p12⟩ :=
    c2_self_collision_terminal c2State 1000 rZero (by decide) (by decide) (by decide)
      (by decide) (by decide)
  exact ⟨p1, p3, p5, p12 ⟨2, 2⟩ rfl⟩

/-- C3: after any movement step (drunk wobble included) the head's coordinates
satisfy 0 ≤ x < 20 and 0 ≤ y < 12; a head leaving any edge reappears on the
opposite edge; and the length-4 snake stepping right from (19,6) wraps to
(0,6) without a collision or game over. -/
theorem c3_wraparound :
    (∀ (st : GameState) (now : Nat) (w : Bool),
        0 ≤ (computeNewHead st now w).x ∧ (computeNewHead st now w).x < 20 ∧
        0 ≤ (computeNewHead st now w).y ∧ (computeNewHead st now w).y < 12) ∧
    (computeNewHead (edgeState [⟨19, 6⟩] dirRight) 0 false = ⟨0, 6⟩ ∧
     computeNewHead (edgeState [⟨0, 6⟩] dirLeft) 0 false = ⟨19, 6⟩ ∧
     computeNewHead (edgeState [⟨7, 0⟩] dirUp) 0 false = ⟨7, 11⟩ ∧
     computeNewHead (edgeState [⟨7, 11⟩] dirDown) 0 false = ⟨7, 0⟩) ∧
    ((tick c3State 1000 rZero).snake = [⟨0, 6⟩, ⟨19, 6⟩, ⟨18, 6⟩, ⟨17, 6⟩] ∧
     (tick c3State 1000 rZero).phase = GamePhase.running ∧
     (tick c3State 1000 rZero).score = c3State.score) := by
  refine ⟨?_, by decide, by decide⟩
  intro st now w
  unfold computeNewHead GRID_COLS GRID_ROWS
  dsimp only
  split
  · split
    · dsimp only
      omega
    · dsimp only
      omega
  · dsimp only
    omega

/-- C4: eating a cay on a committed step increments the tea streak, a 5th
consecutive cay resets the streak to 0 and freezes movement until now+3000 (a
later cay then counts 1 again), any non-cay food resets the streak to 0, and
while frozen a running tick moves nothing. -/
theorem c4_tea_streak :
    (∀ (prev : GameState) (now : Nat) (r : TickRand),
      prev.phase = GamePhase.running →
      ¬((tickNext prev now r).trafficState = TrafficState.red ∧
          now < (tickNext prev now r).trafficUntil) →
      ¬(now < (tickNext prev now r).freezeUntil) →
      ¬(now - (tickNext prev now r).lastStepAt < getSpeedMs (tickNext prev now r) now) →
      (tickNext prev now r).snake.any
        (fun part => samePoint part (computeNewHead (tickNext prev now r) now r.wobbleLeft)) = false →
      samePoint (computeNewHead (tickNext prev now r) now r.wobbleLeft) prev.food.pt = true →
      ((prev.food.type = FoodType.cay →
          (prev.teaStreak + 1 ≥ 5 →
            (tick prev now r).teaStreak = 0 ∧ (tick prev now r).freezeUntil = now + 3000) ∧
          (prev.teaStreak + 1 < 5 →
            (tick prev now r).teaStreak = prev.teaStreak + 1)) ∧
       (prev.food.type ≠ FoodType.cay → (tick prev now r).teaStreak = 0))) ∧
    (∀ (prev : GameState) (now : Nat) (r : TickRand),
      prev.phase = GamePhase.running → now < prev.freezeUntil →
      (tick prev now r).snake = prev.snake ∧ (tick prev now r).score = prev.score ∧
      (tick prev now r).lastStepAt = prev.lastStepAt) := by
  constructor
  · intro prev now r hrun h1 h2 h3 hmiss heat
    rw [tick_commit_eq prev now r hrun h1 h2 h3 hmiss]
    have heat' : samePoint (computeNewHead (tickNext prev now r) now r.wobbleLeft)
        (tickNext prev now r).food.pt = true := by
      rw [tickNext_food]
      exact heat
    constructor
    · intro hcay
      have h := tickEat_cay prev.eventId (tickNext prev now r) now r (tickLine prev now r)
        (tickTone prev now r) (computeNewHead (tickNext prev now r) now r.wobbleLeft)
        (tickNext prev now r).pendingDirection heat' (by rw [tickNext_food]; exact hcay)
      rw [tickNext_teaStreak] at h
      exact ⟨fun h5 => h.1 h5, fun h5 => (h.2 h5).1⟩
    · intro hnot
      exact tickEat_noncay _ _ _ _ _ _ _ _ heat' (by rw [tickNext_food]; exact hnot)
  · intro prev now r hrun hfr
    rw [tick_skip_eq prev now r hrun (Or.inr (Or.inl (by rw [tickNext_freezeUntil]; exact hfr)))]
    refine ⟨?_, ?_, ?_⟩
    · rw [applyEvent_snake, tickNext_snake]
    · rw [applyEvent_score, tickNext_score]
    · rw [applyEvent_lastStepAt, tickNext_lastStepAt]

/-- C4 witness: the 5th cay at time 1000 resets the streak and freezes until 4000. -/
theorem c4_witness :
    (tick c4State 1000 rZero).teaStreak = 0 ∧ (tick c4State 1000 rZero).freezeUntil = 4000 := by
  have h := (c4_tea_streak.1 c4State 1000 rZero (by decide) (by decide) (by decide) (by decide)
    (by decide) (by decide)).1 rfl
  have h2 := h.1 (by decide)
  exact ⟨h2.1, h2.2⟩

/-- C5: the score/best-score bookkeeping: best ≥ score in every reachable
state, a tick never lowers the score, after a tick from a reachable state the
best equals max(old best, new score), the best never decreases across ticks,
and a restart carries it over. -/
theorem c5_score_best_monotone :
    (∀ s, Reachable s → s.score ≤ s.bestScore) ∧
    (∀ (s : GameState) (now : Nat) (r : TickRand), s.score ≤ (tick s now r).score) ∧
    (∀ (s : GameState) (now : Nat) (r : TickRand), Reachable s →
      (tick s now r).bestScore = max s.bestScore (tick s now r).score) ∧
    (∀ (s : GameState) (now : Nat) (r : TickRand), s.bestScore ≤ (tick s now r).bestScore) ∧
    (∀ (s : GameState) (now : Nat) (r : InitRand), (startNewRun s now r).bestScore = s.bestScore) :=
  ⟨reachable_best_ge_score, tick_score_mono,
   fun s now r hr => tick_bestScore_eq s now r (reachable_best_ge_score s hr),
   tick_bestScore_mono, startNewRun_bestScore⟩

/-- C5 witness: the best-score equation at a concrete reachable state. -/
theorem c5_witness :
    (tick (createInitialGame 0 0 irZero) 50 rZero).bestScore =
      max (createInitialGame 0 0 irZero).bestScore
        (tick (createInitialGame 0 0 irZero) 50 rZero).score :=
  c5_score_best_monotone.2.2.1 _ 50 rZero (Reachable.init 0 0 irZero)

/-- C6 counterexample: a reachable committed state whose snake has two equal
entries (the duplicated tail created by doner growth persists between ticks,
it is not confined to a transient move evaluation). -/
theorem c6_counterexample :
    Reachable c6Dup ∧ ¬c6Dup.snake.Nodup ∧
    c6Dup.snake = [⟨9, 6⟩, ⟨8, 6⟩, ⟨7, 6⟩, ⟨6, 6⟩, ⟨5, 6⟩, ⟨5, 6⟩] :=
  ⟨Reachable.step _ 1000 rZero (Reachable.restart _ 0 c6Rand (Reachable.init 0 0 c6Rand)),
   by decide, by decide⟩

/-- C6 (amended): every reachable snake is non-empty; growth happens by
appending duplicate copies of the tail (so entries may coincide only as such
duplicated tail segments); and a move whose new head equals an existing
segment ends the run instead of creating a new duplicate head. -/
theorem c6_snake_invariant :
    (∀ s, Reachable s → 1 ≤ s.snake.length) ∧
    (∀ (prev : GameState) (now : Nat) (r : TickRand),
      prev.phase = GamePhase.running →
      ¬((tickNext prev now r).trafficState = TrafficState.red ∧
          now < (tickNext prev now r).trafficUntil) →
      ¬(now < (tickNext prev now r).freezeUntil) →
      ¬(now - (tickNext prev now r).lastStepAt < getSpeedMs (tickNext prev now r) now) →
      (tickNext prev now r).snake.any
        (fun part => samePoint part (computeNewHead (tickNext prev now r) now r.wobbleLeft)) = false →
      samePoint (computeNewHead (tickNext prev now r) now r.wobbleLeft) prev.food.pt = true →
      (tick prev now r).snake =
        computeNewHead (tickNext prev now r) now r.wobbleLeft :: prev.snake ++
          List.replicate ((FOOD_META prev.food.type).grow - 1) (prev.snake.getLastD ⟨0, 0⟩)) ∧
    (∀ (prev : GameState) (now : Nat) (r : TickRand),
      prev.phase = GamePhase.running →
      ¬((tickNext prev now r).trafficState = TrafficState.red ∧
          now < (tickNext prev now r).trafficUntil) →
      ¬(now < (tickNext prev now r).freezeUntil) →
      ¬(now - (tickNext prev now r).lastStepAt < getSpeedMs (tickNext prev now r) now) →
      (tickNext prev now r).snake.any
        (fun part => samePoint part (computeNewHead (tickNext prev now r) now r.wobbleLeft)) = true →
      (tick prev now r).phase = GamePhase.game_over) := by
  refine ⟨reachable_snake_length, ?_, ?_⟩
  · intro prev now r hrun h1 h2 h3 hmiss heat
    rw [tick_commit_eq prev now r hrun h1 h2 h3 hmiss]
    have heat' : samePoint (computeNewHead (tickNext prev now r) now r.wobbleLeft)
        (tickNext prev now r).food.pt = true := by
      rw [tickNext_food]
      exact heat
    rw [tickEat_snake_eat _ _ _ _ _ _ _ _ heat', tickNext_food, tickNext_snake]
    split
    · simp
    · rename_i hgrow
      have hpos := FOOD_META_grow_pos prev.food.type
      have h1g : (FOOD_META prev.food.type).grow - 1 = 0 := by omega
      rw [h1g]
      simp
  · intro prev now r hrun h1 h2 h3 hhit
    rw [tick_collide_eq prev now r hrun h1 h2 h3 hhit, applyEvent_phase]
    rfl

/-- C6 witness: the length invariant at a concrete reachable state. -/
theorem c6_witness : 1 ≤ (createInitialGame 0 0 irZero).snake.length :=
  c6_snake_invariant.1 _ (Reachable.init 0 0 irZero)

/-- C7 counterexample: in a game-over state a requested up-turn is not the
opposite of the current (right) direction, yet the pending direction does not
change, contradicting the claim's "any other requested direction becomes the
new pendingDirection" over every game state. -/
theorem c7_counterexample :
    c7State.direction = dirRight ∧
    ¬(dirUp.x = -c7State.direction.x ∧ dirUp.y = -c7State.direction.y) ∧
    (queueTurn c7State dirUp).pendingDirection = dirRight ∧
    (queueTurn c7State dirUp).pendingDirection ≠ dirUp := by
  decide

/-- C7 (amended): queueTurn never honors the exact opposite of the current
direction; outside the game-over phase any other requested direction becomes
the pending direction (last write wins); in the game-over phase queueTurn is a
complete no-op. -/
theorem c7_no_reversal (s : GameState) (d : Direction) :
    ((d.x = -s.direction.x ∧ d.y = -s.direction.y) →
      (queueTurn s d).pendingDirection = s.pendingDirection) ∧
    (s.phase ≠ GamePhase.game_over → ¬(d.x = -s.direction.x ∧ d.y = -s.direction.y) →
      (queueTurn s d).pendingDirection = d) ∧
    (s.phase = GamePhase.game_over → queueTurn s d = s) := by
  unfold queueTurn
  dsimp only
  refine ⟨?_, ?_, ?_⟩
  · intro hop
    by_cases hph : s.phase = GamePhase.game_over
    · rw [if_pos hph]
    · rw [if_neg hph, if_pos hop]
  · intro hph hop
    rw [if_neg hph, if_neg hop]
  · intro hph
    rw [if_pos hph]

/-- C7 witness: an honored turn request on the initial (ready) state. -/
theorem c7_witness :
    (queueTurn (createInitialGame 0 0 irZero) dirUp).pendingDirection = dirUp :=
  (c7_no_reversal (createInitialGame 0 0 irZero) dirUp).2.1 (by decide) (by decide)

/-- C8 counterexample: a non-running tick does not only update nowMs: it also
clears a pending eventTone, so the result differs from the previous state with
only the clock refreshed. -/
theorem c8_counterexample :
    tick c8State 5 rZero ≠ { c8State with nowMs := 5 } ∧
    (tick c8State 5 rZero).eventTone = none ∧
    c8State.eventTone = some ToneKey.dead ∧
    (tick c8State 5 rZero).nowMs = 5 := by
  decide

/-- C8 (amended): a tick outside the running phase returns the previous state
with exactly nowMs set to the new clock and eventTone cleared to none; every
other field (including eventId, so no event fires) is unchanged. -/
theorem c8_not_running_frame (prev : GameState) (now : Nat) (r : TickRand)
    (h : prev.phase ≠ GamePhase.running) :
    tick prev now r = { prev with nowMs := now, eventTone := none } := by
  unfold tick
  rw [if_pos h]

/-- C8 witness: the non-running frame at a concrete game-over state. -/
theorem c8_witness : tick c8State 5 rZero = { c8State with nowMs := 5, eventTone := none } :=
  c8_not_running_frame c8State 5 rZero (by decide)

/-- C9 (amended): the charm and the food never share a cell in reachable play
as long as the snake leaves free cells for the spawn draws (the initial state
and restarts have no charm, and every operation preserves disjointness under
that bound); and when they sit on different cells a tick that removes the
charm consumed exactly it: +4 score and the food untouched. -/
theorem c9_charm_food_exclusive :
    (∀ (now best : Nat) (r : InitRand), NazarFoodDisjoint (createInitialGame now best r)) ∧
    (∀ (s : GameState) (now : Nat) (r : InitRand), NazarFoodDisjoint (startNewRun s now r)) ∧
    (∀ (s : GameState) (now : Nat) (r : TickRand), s.snake.length + 4 ≤ 240 →
      NazarFoodDisjoint s → NazarFoodDisjoint (tick s now r)) ∧
    (∀ (s : GameState) (d : Direction), NazarFoodDisjoint s → NazarFoodDisjoint (queueTurn s d)) ∧
    (∀ (s : GameState) (now : Nat) (r : TickRand) (c : Point),
      s.nazar = some c → c ≠ s.food.pt → (tick s now r).nazar = none →
      (tick s now r).food = s.food ∧ (tick s now r).score = s.score + 4) := by
  refine ⟨?_, ?_, tick_nazar_food_disjoint, ?_, tick_nazar_consume⟩
  · intro now best r c hc
    rw [createInitialGame_nazar] at hc
    cases hc
  · intro s now r c hc
    rw [startNewRun_nazar] at hc
    cases hc
  · intro s d hdis c hc
    obtain ⟨-, -, -, h4, h5⟩ := queueTurn_frame s d
    rw [h5] at hc
    rw [h4]
    exact hdis c hc

/-- C9 witness: consuming the charm at (9,6) pays +4 and leaves the food at
(3,3) alone. -/
theorem c9_witness :
    (tick c9State 1000 rZero).food = c9State.food ∧
    (tick c9State 1000 rZero).score = c9State.score + 4 :=
  c9_charm_food_exclusive.2.2.2.2 c9State 1000 rZero ⟨9, 6⟩ rfl (by decide) (by decide)

/-- C10: while the phase is game over, queueTurn returns the state unchanged
for every requested direction. -/
theorem c10_game_over_noop (s : GameState) (d : Direction)
    (h : s.phase = GamePhase.game_over) : queueTurn s d = s := by
  unfold queueTurn
  rw [if_pos h]

/-- C10 witness: the no-op at a concrete game-over state. -/
theorem c10_witness : queueTurn c10State dirLeft = c10State :=
  c10_game_over_noop c10State dirLeft rfl


/-- Running a concatenated schedule runs the pieces in order. -/
theorem runActs_append (s : GameState) (l1 l2 : List Act) :
    runActs s (l1 ++ l2) = runActs (runActs s l1) l2 :=
  List.foldl_append applyAct s l1 l2

/-- A schedule of ticks and unit-direction requests only visits reachable
states. -/
theorem runActs_reachable (acts : List Act) (s : GameState) (hs : Reachable s)
    (hok : acts.all actOk = true) : Reachable (runActs s acts) := by
  induction acts generalizing s with
  | nil => exact hs
  | cons a rest ih =>
    simp only [List.all_cons, Bool.and_eq_true] at hok
    have hs' : Reachable (applyAct s a) := by
      cases a with
      | turn d =>
        apply Reachable.turn s d hs
        have hd := hok.1
        simp only [actOk, Bool.or_eq_true, beq_iff_eq] at hd
        rcases hd with ((h | h) | h) | h <;> simp [h]
      | tk now r => exact Reachable.step s now r hs
    have hexp : runActs s (a :: rest) = runActs (applyAct s a) rest := by
      simp [runActs]
    rw [hexp]
    exact ih (applyAct s a) hs' hok.2

set_option maxRecDepth 1000000 in
/-- The scripted schedule only requests unit directions. -/
theorem c9_trace_ok : traceActs.all actOk = true := by decide

set_option maxRecDepth 1000000 in
set_option maxHeartbeats 4000000 in
/-- First half of the scripted game, checked by evaluation. -/
theorem c9_chunk1 : runActs c9Start (traceActs.take 150) = c9Mid := by rfl

set_option maxRecDepth 1000000 in
set_option maxHeartbeats 4000000 in
/-- Second half of the scripted game: at its end the charm sits on (0,0) and
so does the food. -/
theorem c9_chunk2 :
    (runActs c9Mid (traceActs.drop 150)).nazar = some ⟨0, 0⟩ ∧
    (runActs c9Mid (traceActs.drop 150)).food.pt = ⟨0, 0⟩ := by
  exact ⟨rfl, rfl⟩

set_option maxRecDepth 1000000 in
/-- C9 counterexample: a reachable state in which the charm and the food occupy
the same cell (0,0): once the snake has covered the whole board, the food
respawn and then the charm spawn both exhaust randomCell's scan and return its
(0,0) fallback. -/
theorem c9_counterexample :
    Reachable c9Bad ∧ c9Bad.nazar = some c9Bad.food.pt := by
  refine ⟨?_, ?_⟩
  · exact runActs_reachable traceActs c9Start
      (Reachable.restart _ 0 c9Rand (Reachable.init 0 0 c9Rand)) c9_trace_ok
  · have h : c9Bad = runActs c9Mid (traceActs.drop 150) := by
      unfold c9Bad
      rw [← c9_chunk1, ← runActs_append, List.take_append_drop]
    rw [h, c9_chunk2.1, c9_chunk2.2]
